import Mathlib

/-!
Verification development for the page-counter core.

This file gives a shallow embedding, in Lean 4, of the PDF page-count
extraction subsystem of the repository and settles the specification
claims against it.

Modelling conventions:
* A byte buffer (`&[u8]`) is a `List Nat` of byte values.
* Rust `usize` arithmetic is `Nat`; all subtractions in the source are
  `saturating_sub`, which is exactly `Nat` subtraction.
* Rust `while` loops become structural recursions over the window of the
  buffer the loop may inspect (`(bytes.drop pos).take (endB - pos)`), with
  the absolute position threaded through; `for i in a..b` loops become
  folds or recursions over `List.range' a (b - a)` / `List.range n`.
* `f64` is modelled by `Rat` (exact rationals; the rounding of decimal
  literals to binary floating point is abstracted away — none of the
  claims checked here depends on it).
* Fallible / panicking operations return `Option` / `Except`.  In
  `extract_mediabox_ultra_fast` the one unguarded slice index of the
  source is modelled by an explicit bounds-checked read so that the
  panic behaviour is observable.
-/

namespace PageCounter

/-- Byte list of a string of ASCII text (used to write the byte patterns and
concrete test buffers of the source). -/
def str_bytes (s : String) : List Nat :=
  s.toList.map Char.toNat

/-- Window `bytes[pos..endB]` of a buffer, as in a Rust subslice. -/
def window (bytes : List Nat) (pos endB : Nat) : List Nat :=
  (bytes.drop pos).take (endB - pos)

namespace UltraFastPdf

/-- Embeds `is_whitespace` of `ultra_fast_pdf.rs`: PDF whitespace bytes
are space, tab, CR, LF and NUL. -/
def is_whitespace (b : Nat) : Bool :=
  b == 32 || b == 9 || b == 13 || b == 10 || b == 0

/-- ASCII digit test, embedding `u8::is_ascii_digit`. -/
def is_digit (b : Nat) : Bool :=
  48 ≤ b && b ≤ 57

/-- Structural core of `matches_pattern`: the pattern is compared byte by
byte against a suffix of the buffer. -/
def matches_from : List Nat → List Nat → Bool
  | _, [] => true
  | [], _ :: _ => false
  | b :: bs, p :: ps => b == p && matches_from bs ps

/-- Embeds `matches_pattern` of `ultra_fast_pdf.rs`: `false` when the
pattern would overrun the buffer, otherwise a byte-wise comparison at
`pos`. -/
def matches_pattern (bytes : List Nat) (pos : Nat) (pattern : List Nat) : Bool :=
  if pos + pattern.length > bytes.length then false
  else matches_from (bytes.drop pos) pattern

/-- Generic skip loop: advances `pos` over the window while the predicate
holds, consuming the window structurally. -/
def skip_go (p : Nat → Bool) : List Nat → Nat → Nat
  | [], pos => pos
  | b :: rest, pos => if p b then skip_go p rest (pos + 1) else pos

/-- Embeds the Rust loop `while pos < endB && p(bytes[pos]) { pos += 1 }`. -/
def skip_while (p : Nat → Bool) (bytes : List Nat) (pos endB : Nat) : Nat :=
  skip_go p (window bytes pos endB) pos

/-- Special characters skipped before a count in `search_all_count_values`:
parentheses, angle brackets and square brackets (no colon there). -/
def is_skip_sacv (b : Nat) : Bool :=
  is_whitespace b || b == 40 || b == 41 || b == 60 || b == 62 || b == 91 || b == 93

/-- Special characters skipped before a count in `find_count_in_range`,
`find_count_after_position` and `search_count_without_slash`: as
`is_skip_sacv` plus the colon. -/
def is_skip_colon (b : Nat) : Bool :=
  is_skip_sacv b || b == 58

/-- Digit loop of `extract_first_number`: accumulates the decimal value and
aborts with `none` once the value exceeds 100 000 000; at the end the value
is returned only when at least one digit was seen. -/
def efn_digits : List Nat → Nat → Bool → Option Nat
  | [], num, found => if found then some num else none
  | b :: rest, num, found =>
    if is_digit b then
      let num' := num * 10 + (b - 48)
      if num' > 100000000 then none else efn_digits rest num' true
    else if found then some num else none

/-- Embeds `extract_first_number` of `ultra_fast_pdf.rs`: skip whitespace
then parse a decimal number bounded by 100 000 000. -/
def extract_first_number (bytes : List Nat) : Option Nat :=
  let pos := skip_while is_whitespace bytes 0 bytes.length
  efn_digits (bytes.drop pos) 0 false

/-- Digit loop used by `search_all_count_values` and
`search_count_without_slash`: on exceeding 1 000 000 it `break`s, leaving
the partial value in place (which the caller then filters out). -/
def digits_break : List Nat → Nat → Bool → Nat × Bool
  | [], num, found => (num, found)
  | b :: rest, num, found =>
    if is_digit b then
      let num' := num * 10 + (b - 48)
      if num' > 1000000 then (num', true) else digits_break rest num' true
    else (num, found)

/-- Digit loop used by `find_count_in_range` and
`find_count_after_position`: on exceeding 1 000 000 the whole search
returns `none` (modelled by the outer `none`). -/
def digits_guarded : List Nat → Nat → Bool → Option (Nat × Bool)
  | [], num, found => some (num, found)
  | b :: rest, num, found =>
    if is_digit b then
      let num' := num * 10 + (b - 48)
      if num' > 1000000 then none else digits_guarded rest num' true
    else some (num, found)

/-- Byte pattern for the string `/Count`. -/
def count_pat : List Nat := str_bytes ("/Count")

/-- Byte pattern for the string `Count` (without slash). -/
def count_noslash_pat : List Nat := str_bytes ("Count")

/-- Byte pattern for the string `/Pages`. -/
def pages_pat : List Nat := str_bytes ("/Pages")

/-- Byte pattern for the string `startxref`. -/
def startxref_pat : List Nat := str_bytes ("startxref")

/-- Byte pattern for the string `trailer`. -/
def trailer_pat : List Nat := str_bytes ("trailer")

/-- Byte pattern for the string `/Root`. -/
def root_pat : List Nat := str_bytes ("/Root")

/-- Byte pattern for the string `/MediaBox`. -/
def mediabox_pat : List Nat := str_bytes ("/MediaBox")

/-- Shared loop of `find_count_in_range` and `find_count_after_position`:
scan the candidate positions in order; at the first `/Count` match parse
the following digits (skipping whitespace and special characters up to
`bound`); an overflowing parse aborts the whole search with `none`, a
digit-less parse falls through to the next candidate position. -/
def count_scan_go (bytes : List Nat) (bound : Nat) : List Nat → Option Nat
  | [] => none
  | i :: rest =>
    if matches_pattern bytes i count_pat then
      let pos := skip_while is_skip_colon bytes (i + 6) bound
      match digits_guarded (window bytes pos bound) 0 false with
      | none => none
      | some (num, found) =>
        if found then some num else count_scan_go bytes bound rest
    else count_scan_go bytes bound rest

/-- Embeds `find_count_after_position` of `ultra_fast_pdf.rs`: positions
`start..end-10` are scanned and the byte reads are bounded by `endB`. -/
def find_count_after_position (bytes : List Nat) (start endB : Nat) : Option Nat :=
  count_scan_go bytes endB (List.range' start (endB - 10 - start))

/-- Embeds `find_count_in_range` of `ultra_fast_pdf.rs`: positions
`start..end-10` are scanned but the byte reads of the parse are bounded by
the whole buffer length (as in the source). -/
def find_count_in_range (bytes : List Nat) (start endB : Nat) : Option Nat :=
  count_scan_go bytes bytes.length (List.range' start (endB - 10 - start))

/-- Value contributed by a `/Count` occurrence at `i` in
`search_all_count_values`: skip whitespace/specials, parse digits with the
break-at-1 000 000 loop, and keep the value only when digits were found
and `0 < num < 1 000 000`. -/
def count_occurrence_value (bytes : List Nat) (i : Nat) : Option Nat :=
  if matches_pattern bytes i count_pat then
    let pos := skip_while is_skip_sacv bytes (i + 6) bytes.length
    let r := digits_break (window bytes pos bytes.length) 0 false
    if r.2 && r.1 > 0 && r.1 < 1000000 then some r.1 else none
  else none

/-- Maximum of a list of naturals, via a left fold starting at 0 (the
value `counts.iter().max()` computes on a non-empty list of positives). -/
def list_max (l : List Nat) : Nat := l.foldl Nat.max 0

/-- Embeds `search_all_count_values` of `ultra_fast_pdf.rs`: every
position in `0 .. len-20` is checked for `/Count`, contributing values are
collected, and the maximum is returned when positive. -/
def search_all_count_values (bytes : List Nat) : Option Nat :=
  let counts := (List.range (bytes.length - 20)).filterMap (count_occurrence_value bytes)
  if counts.isEmpty then none
  else if list_max counts > 0 then some (list_max counts) else none

/-- Value contributed by a bare `Count` occurrence at `i` in
`search_count_without_slash` (the occurrence must be preceded by
whitespace or a slash; the skip set includes the colon). -/
def count_noslash_occurrence_value (bytes : List Nat) (i : Nat) : Option Nat :=
  if i > 0 && (is_whitespace (bytes.getD (i - 1) 0) || bytes.getD (i - 1) 0 == 47)
      && matches_pattern bytes i count_noslash_pat then
    let pos := skip_while is_skip_colon bytes (i + 5) bytes.length
    let r := digits_break (window bytes pos bytes.length) 0 false
    if r.2 && r.1 > 0 && r.1 < 1000000 then some r.1 else none
  else none

/-- Embeds `search_count_without_slash` of `ultra_fast_pdf.rs`. -/
def search_count_without_slash (bytes : List Nat) : Option Nat :=
  let counts := (List.range (bytes.length - 20)).filterMap (count_noslash_occurrence_value bytes)
  if counts.isEmpty then none
  else if list_max counts > 0 then some (list_max counts) else none

/-- Loop body of `search_type_pages_pattern`: at a `/Pages` match, search
the next 2000 bytes for a count; a found count sets the flag and replaces
the maximum when `count > max && count < 1 000 000`. -/
def stpp_body (bytes : List Nat) (s : Nat × Bool) (i : Nat) : Nat × Bool :=
  if matches_pattern bytes i pages_pat then
    match find_count_after_position bytes i (min (i + 2000) bytes.length) with
    | some count => (if count > s.1 && count < 1000000 then count else s.1, true)
    | none => s
  else s

/-- Embeds `search_type_pages_pattern` of `ultra_fast_pdf.rs`. -/
def search_type_pages_pattern (bytes : List Nat) : Option Nat :=
  let s := (List.range (bytes.length - 20)).foldl (stpp_body bytes) (0, false)
  if s.2 && s.1 > 0 then some s.1 else none

/-- Update step of `search_pages_with_large_window` for one search result. -/
def spwlw_step (s : Nat × Bool) (c : Option Nat) : Nat × Bool :=
  match c with
  | some count => (if count > s.1 && count < 1000000 then count else s.1, true)
  | none => s

/-- Loop body of `search_pages_with_large_window`: at a `/Pages` match,
search backward (up to 2000 bytes) and then forward (up to 5000 bytes). -/
def spwlw_body (bytes : List Nat) (s : Nat × Bool) (i : Nat) : Nat × Bool :=
  if matches_pattern bytes i pages_pat then
    let s1 := spwlw_step s (find_count_in_range bytes (i - 2000) i)
    spwlw_step s1 (find_count_after_position bytes i (min (i + 5000) bytes.length))
  else s

/-- Embeds `search_pages_with_large_window` of `ultra_fast_pdf.rs`. -/
def search_pages_with_large_window (bytes : List Nat) : Option Nat :=
  let s := (List.range (bytes.length - 50)).foldl (spwlw_body bytes) (0, false)
  if s.2 && s.1 > 0 then some s.1 else none

/-- Specification view of one `search_type_pages_pattern` occurrence: the
value a `/Pages` match at `i` contributes, namely the first count found in
the next 2000 bytes when it is strictly between 0 and 1 000 000. -/
def pages_occurrence_value (bytes : List Nat) (i : Nat) : Option Nat :=
  if matches_pattern bytes i pages_pat then
    match find_count_after_position bytes i (min (i + 2000) bytes.length) with
    | some c => if 0 < c ∧ c < 1000000 then some c else none
    | none => none
  else none

/-- Whether a position sets the `found_pages` flag of
`search_type_pages_pattern`: a `/Pages` match whose forward window search
returned any count at all. -/
def pages_found (bytes : List Nat) (i : Nat) : Bool :=
  matches_pattern bytes i pages_pat &&
    (find_count_after_position bytes i (min (i + 2000) bytes.length)).isSome

/-- Embeds `find_object_reference` of `ultra_fast_pdf.rs`: at the first
keyword match, the following number is extracted (its absence is final,
exactly as the `return` in the source). -/
def find_object_reference (bytes keyword : List Nat) : Option Nat :=
  match (List.range (bytes.length - (keyword.length + 10))).find?
      (fun i => matches_pattern bytes i keyword) with
  | some i => extract_first_number (bytes.drop (i + keyword.length))
  | none => none

/-- Embeds `find_object_by_id` of `ultra_fast_pdf.rs`: search for the text
`<id> 0 obj` and return the following (at most 2000 byte) window. -/
def find_object_by_id (bytes : List Nat) (obj_id : Nat) : Option (List Nat) :=
  let pattern := str_bytes (toString obj_id ++ " 0 obj")
  match (List.range (bytes.length - pattern.length)).find?
      (fun i => matches_pattern bytes i pattern) with
  | some i => some (window bytes i (min (i + 2000) bytes.length))
  | none => none

/-- Embeds `find_count_value` of `ultra_fast_pdf.rs`: at the first
`/Count` match the following number is extracted (with the 100 000 000
bound of `extract_first_number`, and no rejection of zero). -/
def find_count_value (bytes : List Nat) : Option Nat :=
  match (List.range (bytes.length - 10)).find?
      (fun i => matches_pattern bytes i count_pat) with
  | some i => extract_first_number (bytes.drop (i + 6))
  | none => none

/-- Embeds `parse_from_end_of_file` of `ultra_fast_pdf.rs`: the
specification-following chain startxref → xref offset → trailer → /Root →
catalog object → /Pages → Pages object → /Count. -/
def parse_from_end_of_file (bytes : List Nat) : Option Nat :=
  if bytes.length < 100 then none
  else
    let search_start := bytes.length - 1024
    let end_section := bytes.drop search_start
    match (((List.range (end_section.length - 9)).filter
        (fun i => matches_pattern end_section i startxref_pat)).getLast?) with
    | none => none
    | some sp =>
      let startxref_pos := search_start + sp
      match extract_first_number (bytes.drop (startxref_pos + 9)) with
      | none => none
      | some xref_offset =>
        if xref_offset ≥ bytes.length then none
        else
          let from_xref := bytes.drop xref_offset
          match (List.range (min (from_xref.length - 7) 5000)).find?
              (fun i => matches_pattern from_xref i trailer_pat) with
          | none => none
          | some trailer_pos =>
            let trailer_section := window from_xref trailer_pos
                (min (trailer_pos + 2000) from_xref.length)
            match find_object_reference trailer_section root_pat with
            | none => none
            | some root_obj_id =>
              match find_object_by_id bytes root_obj_id with
              | none => none
              | some root_section =>
                match find_object_reference root_section pages_pat with
                | none => none
                | some pages_obj_id =>
                  match find_object_by_id bytes pages_obj_id with
                  | none => none
                  | some pages_section => find_count_value pages_section

/-- Embeds `count_pages_ultra_fast` of `ultra_fast_pdf.rs`: the five
strategies are tried in order and the first non-empty result is
returned. -/
def count_pages_ultra_fast (bytes : List Nat) : Option Nat :=
  match parse_from_end_of_file bytes with
  | some count => some count
  | none =>
    match search_type_pages_pattern bytes with
    | some count => some count
    | none =>
      match search_all_count_values bytes with
      | some count => some count
      | none =>
        match search_pages_with_large_window bytes with
        | some count => some count
        | none =>
          match search_count_without_slash bytes with
          | some count => some count
          | none => none

/-- Marker for a Rust panic caused by an out-of-bounds slice index. -/
inductive RustPanic
  | indexOutOfBounds
deriving DecidableEq

/-- Bounds-checked byte read: models a Rust slice index `bytes[i]`, which
panics when `i` is out of bounds. -/
def read_byte (bytes : List Nat) (i : Nat) : Except RustPanic Nat :=
  if i < bytes.length then .ok (bytes.getD i 0) else .error .indexOutOfBounds

/-- Character-collecting loop of `parse_float`: consume digits and dots
from the window, extending the collected ASCII text; any other byte (or
the end of the window) stops the loop. -/
def pf_scan : List Nat → Nat → List Nat → Nat × List Nat
  | [], pos, acc => (pos, acc)
  | b :: rest, pos, acc =>
    if is_digit b || b == 46 then pf_scan rest (pos + 1) (acc ++ [b])
    else (pos, acc)

/-- Numeric value of a list of ASCII digits (most significant first). -/
def digits_value (l : List Nat) : Nat :=
  l.foldl (fun acc b => acc * 10 + (b - 48)) 0

/-- Models `str::parse::<f64>` on the texts `parse_float` can collect
(an optional leading minus, then digits and dots): the parse succeeds iff
there is at least one digit and at most one dot, and the value is the
exact decimal value (binary-float rounding is abstracted away). -/
def rat_of_ascii (l : List Nat) : Option Rat :=
  let core := fun (ds : List Nat) =>
    if ds.any is_digit && ds.count 46 ≤ 1 then
      let ip := ds.takeWhile (fun b => !(b == 46))
      let fp := (ds.dropWhile (fun b => !(b == 46))).drop 1
      some ((digits_value ip : Rat) + (digits_value fp : Rat) / ((10 : Rat) ^ fp.length))
    else none
  match l with
  | 45 :: rest => (core rest).map (fun q => -q)
  | _ => core l

/-- Embeds `parse_float` of `ultra_fast_pdf.rs`. Every byte read of the
source loop is guarded by `pos < end`, so no panic can arise here. -/
def parse_float (bytes : List Nat) (start endB : Nat) : Option (Rat × Nat) :=
  let first :=
    if start < endB && bytes.getD start 0 == 45 then (start + 1, [45])
    else (start, ([] : List Nat))
  let scanned := pf_scan (window bytes first.1 endB) first.1 first.2
  if scanned.2.isEmpty then none
  else
    match rat_of_ascii scanned.2 with
    | some q => some (q, scanned.1)
    | none => none

/-- Number-collecting loop of `extract_mediabox_ultra_fast`.  The counter
`k` is the number of free slots (`4 - numbers.len()`); the loop runs while
`numbers.len() < 4 && pos < search_end`.  The closing-bracket test
`bytes[pos] == b']'` of the source is NOT guarded by `pos < search_end`,
which `read_byte` makes observable: when the whitespace skip ran to
`search_end = bytes.len()`, the source reads one byte past the end. -/
def collect_numbers (bytes : List Nat) (s_end : Nat) :
    Nat → Nat → List Rat → Except RustPanic (List Rat)
  | 0, _, numbers => .ok numbers
  | k + 1, pos, numbers =>
    if pos < s_end then
      let pos1 := skip_while is_whitespace bytes pos s_end
      match read_byte bytes pos1 with
      | .error e => .error e
      | .ok b =>
        if b == 93 then .ok numbers
        else
          match parse_float bytes pos1 s_end with
          | some (num, new_pos) =>
            collect_numbers bytes s_end k new_pos (numbers ++ [num])
          | none => .ok numbers
    else .ok numbers

/-- Outer loop of `extract_mediabox_ultra_fast`: scan the positions for
`/MediaBox`, find the opening bracket within the next 100 bytes, collect
up to four numbers, and return the first plausible width/height pair. -/
def emb_go (bytes : List Nat) : List Nat → Except RustPanic (Option (Rat × Rat))
  | [] => .ok none
  | i :: rest =>
    if matches_pattern bytes i mediabox_pat then
      let pos0 := i + 9
      let s_end := min (pos0 + 100) bytes.length
      let pos1 := skip_while (fun b => !(b == 91)) bytes pos0 s_end
      if pos1 ≥ s_end then emb_go bytes rest
      else
        match collect_numbers bytes s_end 4 (pos1 + 1) [] with
        | .error e => .error e
        | .ok numbers =>
          if 4 ≤ numbers.length then
            let width := |numbers.getD 2 0 - numbers.getD 0 0|
            let height := |numbers.getD 3 0 - numbers.getD 1 0|
            if 0 < width ∧ width < 10000 ∧ 0 < height ∧ height < 10000 then
              .ok (some (width, height))
            else emb_go bytes rest
          else emb_go bytes rest
    else emb_go bytes rest

/-- Embeds `extract_mediabox_ultra_fast` of `ultra_fast_pdf.rs`, with the
out-of-bounds panic of the source surfaced as `.error`. -/
def extract_mediabox_ultra_fast (bytes : List Nat) :
    Except RustPanic (Option (Rat × Rat)) :=
  emb_go bytes (List.range (bytes.length - 50))

/-- Modelled from the spec: the GlobalMaxCount strategy is described as
scanning the ENTIRE buffer for every `/Count <n>` occurrence with no
proximity constraint and keeping the maximum `n` (with the stated
rejection of zero and of counts beyond the sanity bound).  It differs
from `search_all_count_values` only in the range of scanned positions:
every position of the buffer instead of `0 .. len - 20`. -/
def global_max_count_spec (bytes : List Nat) : Option Nat :=
  let counts := (List.range bytes.length).filterMap (count_occurrence_value bytes)
  if counts.isEmpty then none
  else if list_max counts > 0 then some (list_max counts) else none

/-- Modelled from the spec: the TypePagesProximity strategy is described
as searching, for every `/Pages` occurrence, a bounded window of
2000–5000 bytes in BOTH directions for a `/Count <n>` and keeping the
maximum valid `n`.  The window here is 2000 bytes backward and 5000 bytes
forward of the occurrence, searched with the repository's own range
search. -/
def type_pages_proximity_spec (bytes : List Nat) : Option Nat :=
  let counts := (List.range bytes.length).filterMap (fun i =>
    if matches_pattern bytes i pages_pat then
      match find_count_in_range bytes (i - 2000) (min (i + 5000) bytes.length) with
      | some c => if 0 < c ∧ c < 1000000 then some c else none
      | none => none
    else none)
  if counts.isEmpty then none
  else if list_max counts > 0 then some (list_max counts) else none

end UltraFastPdf

namespace Schema

/-- Embeds `PageSizeMm` of `schema.rs` (f64 fields modelled by `Rat`). -/
structure PageSizeMm where
  width_mm : Rat
  height_mm : Rat
deriving DecidableEq

/-- Embeds `EstimateResult` of `schema.rs`. -/
structure EstimateResult where
  page_count : Nat
  page_sizes : List PageSizeMm
  notes : List String
deriving DecidableEq

/-- Embeds `EstimateOptions` of `schema.rs`. -/
structure EstimateOptions where
  default_paper : Option String
  custom_paper_mm : Option (Rat × Rat)
  chars_per_page : Option Nat
  rows_per_page : Option Nat

/-- Embeds `EstimateOptions::default` of `schema.rs`. -/
def EstimateOptions.defaults : EstimateOptions :=
  { default_paper := some ("A4"), custom_paper_mm := none,
    chars_per_page := none, rows_per_page := none }

/-- Embeds `EstimatorError` of `schema.rs`. -/
inductive EstimatorError
  | UnsupportedFormat
  | PdfError (msg : String)
  | XlsxError (msg : String)
  | General (msg : String)
deriving DecidableEq

/-- Display text of an `EstimatorError`, as produced by the
`thiserror`-derived `to_string` used in `assembly.rs`. -/
def EstimatorError.toMessage : EstimatorError → String
  | .UnsupportedFormat => "Unsupported or unrecognized format"
  | .PdfError m => "PDF parse error: " ++ m
  | .XlsxError m => "XLSX parse error: " ++ m
  | .General m => "General error: " ++ m

end Schema

namespace FileUtils

/-- Embeds `mm_from_pt` of `file_utils.rs`: `pt / 72.0 * 25.4`. -/
def mm_from_pt (pt : Rat) : Rat :=
  pt / 72 * (254 / 10)

/-- Embeds `a4_mm` of `file_utils.rs`. -/
def a4_mm : Rat × Rat := (210, 297)

/-- Embeds `letter_mm` of `file_utils.rs`. -/
def letter_mm : Rat × Rat := (2159 / 10, 2794 / 10)

/-- Result of probing the input as a ZIP archive with the external `zip`
crate (used by `detect_office_type`): whether the archive opens and which
of the three marker files it contains.  The external library is modelled
as an input. -/
structure ZipProbe where
  opens : Bool
  has_word_document : Bool
  has_ppt_presentation : Bool
  has_xl_workbook : Bool

/-- Embeds `detect_office_type` of `file_utils.rs`. -/
def detect_office_type (z : ZipProbe) : String :=
  if z.opens then
    if z.has_word_document then "docx"
    else if z.has_ppt_presentation then "pptx"
    else if z.has_xl_workbook then "xlsx"
    else "xlsx"
  else "xlsx"

/-- Printable-byte test of the crude text detection in `detect_type`. -/
def is_printable (b : Nat) : Bool :=
  b == 9 || b == 10 || b == 13 || (32 ≤ b && b ≤ 127)

/-- Magic-byte fallback of `detect_type` of `file_utils.rs`. -/
def detect_type_magic (bytes : List Nat) (z : ZipProbe) : String :=
  if 4 ≤ bytes.length ∧ bytes.take 4 = PageCounter.str_bytes ("%PDF") then "pdf"
  else if 4 ≤ bytes.length ∧ bytes.take 2 = [80, 75] then detect_office_type z
  else if bytes.all is_printable then "txt"
  else "unknown"

/-- Embeds `detect_type` of `file_utils.rs`: extension checks first (on
the lower-cased filename), then the magic-byte fallback. -/
def detect_type (filename : Option String) (bytes : List Nat) (z : ZipProbe) : String :=
  match filename with
  | some name =>
    let lower := name.toLower
    if lower.endsWith (".pdf") then "pdf"
    else if lower.endsWith (".xlsx") || lower.endsWith (".xlsm") then "xlsx"
    else if lower.endsWith (".docx") then "docx"
    else if lower.endsWith (".pptx") then "pptx"
    else if lower.endsWith (".md") || lower.endsWith (".markdown") then "markdown"
    else if lower.endsWith (".txt") then "txt"
    else detect_type_magic bytes z
  | none => detect_type_magic bytes z

end FileUtils

namespace Estimators

open Schema FileUtils

/-- Embeds the paper-size selection block repeated in the estimators:
custom size, else "Letter"/"letter", else A4. -/
def paper_size (options : EstimateOptions) : Rat × Rat :=
  match options.custom_paper_mm with
  | some custom => custom
  | none =>
    match options.default_paper with
    | some d => if d = "Letter" ∨ d = "letter" then letter_mm else a4_mm
    | none => a4_mm

/-- Embeds `estimate_text_pages` of `estimators.rs`.  The external
`std::str::from_utf8` conversion is an input: `none` models invalid
UTF-8, `some s` the decoded character sequence.  (For the degenerate
option `chars_per_page = some 0` the Rust division panics; `Nat`
division yields 0 pages there, which still satisfies every property
proved about this function.) -/
def estimate_text_pages (utf8 : Option (List Char)) (options : EstimateOptions) :
    EstimateResult :=
  match utf8 with
  | none =>
    { page_count := 0, page_sizes := [], notes := ["Text not valid UTF-8"] }
  | some s =>
    let chars := s.length
    let chars_per_page := options.chars_per_page.getD 1800
    let pages := (chars + chars_per_page - 1) / chars_per_page
    let wh := paper_size options
    { page_count := pages,
      page_sizes := List.replicate pages { width_mm := wh.1, height_mm := wh.2 },
      notes := ["chars: " ++ toString chars ++ ", chars_per_page: " ++ toString chars_per_page] }

/-- Embeds `estimate_markdown_pages` of `estimators.rs`: the text
estimate with one extra note. -/
def estimate_markdown_pages (utf8 : Option (List Char)) (options : EstimateOptions) :
    EstimateResult :=
  let res := estimate_text_pages utf8 options
  { res with notes := res.notes ++
      ["Markdown parsed as text; images/embedded content not considered."] }

/-- Character pattern `/Type`. -/
def type_pat : List Char := ("/Type").toList

/-- Character pattern `/Type /Page`. -/
def type_page_spaced : List Char := ("/Type /Page").toList

/-- Character pattern `/Type/Page`. -/
def type_page_tight : List Char := ("/Type/Page").toList

/-- Scanning loop of `estimate_pdf_pages` of `estimators.rs`.  The Rust
loop repeatedly `find`s the next `/Type`, counts it when it begins
`/Type /Page` or `/Type/Page` not followed by `s`, and resumes the search
5 characters later; this recursion steps one character at a time when
`/Type` does not match (the two are equivalent) and jumps 5 characters
after a match.  `fuel` starts at the length of the text, which bounds the
number of steps (each consumes at least one character). -/
def epp_go : Nat → List Char → Nat → Nat
  | 0, _, page_count => page_count
  | _ + 1, [], page_count => page_count
  | fuel + 1, c :: rest, page_count =>
    let remaining := c :: rest
    if type_pat.isPrefixOf remaining then
      let page_count' :=
        if type_page_spaced.isPrefixOf remaining || type_page_tight.isPrefixOf remaining then
          let after_page :=
            if type_page_spaced.isPrefixOf remaining then remaining.drop 11
            else remaining.drop 10
          if !(after_page.headD ' ' == 's') then page_count + 1 else page_count
        else page_count
      epp_go fuel (remaining.drop 5) page_count'
    else epp_go fuel rest page_count

/-- Embeds `estimate_pdf_pages` of `estimators.rs` (the simple
`/Type /Page` counter).  Its input is the lossy string view
`String::from_utf8_lossy(bytes)` (external std conversion), given as a
character list. -/
def estimate_pdf_pages (pdf_str : List Char) :
    Except EstimatorError EstimateResult :=
  let page_count := epp_go pdf_str.length pdf_str 0
  if page_count = 0 then
    .error (.PdfError
      ("No pages found in PDF. File may be corrupted or use an unsupported format."))
  else
    .ok { page_count := page_count,
          page_sizes := List.replicate page_count { width_mm := a4_mm.1, height_mm := a4_mm.2 },
          notes := ["PDF has " ++ toString page_count ++ " pages (estimated using simple parsing)",
                    "⚠ For more accurate results, use the async estimate_pdf_with_pdfjs function"] }

/-- One worksheet as delivered by the external `calamine` reader: its name
and either its rows (each cell reduced to its only used property, being
non-empty) or `none` when `worksheet_range` failed. -/
structure SheetData where
  name : String
  range_result : Option (List (List Bool))

/-- Row counting of `estimate_xlsx_pages`: index (1-based) of the last row
having any non-empty cell. -/
def last_nonempty_row (rows : List (List Bool)) : Nat :=
  rows.enum.foldl (fun last p => if p.2.any (fun c => c) then p.1 + 1 else last) 0

/-- Per-sheet step of the `estimate_xlsx_pages` loop, accumulating
`(total_pages, per_page_sizes, notes)`.  (As in the text estimator, a
degenerate `rows_per_page = some 0` panics in Rust; `Nat` division makes
the sheet contribute 0 pages there.) -/
def xlsx_step (w h : Rat) (rows_per_page : Nat)
    (acc : Nat × List PageSizeMm × List String) (sheet : SheetData) :
    Nat × List PageSizeMm × List String :=
  match sheet.range_result with
  | some rows =>
    let last_row_index := last_nonempty_row rows
    let pages_for_sheet := (last_row_index + rows_per_page - 1) / rows_per_page
    if pages_for_sheet > 0 then
      (acc.1 + pages_for_sheet,
       acc.2.1 ++ List.replicate pages_for_sheet { width_mm := w, height_mm := h },
       acc.2.2 ++ ["Sheet '" ++ sheet.name ++ "' rows: " ++ toString last_row_index ++
                   ", pages: " ++ toString pages_for_sheet])
    else
      (acc.1, acc.2.1, acc.2.2 ++ ["Sheet '" ++ sheet.name ++ "' empty; 0 pages"])
  | none =>
    (acc.1, acc.2.1, acc.2.2 ++ ["Could not read sheet '" ++ sheet.name ++ "'"])

/-- Embeds `estimate_xlsx_pages` of `estimators.rs`.  The external
`calamine` workbook is an input: `.error e` models a failed
`Xlsx::new`, `.ok sheets` the opened workbook. -/
def estimate_xlsx_pages (workbook : Except String (List SheetData))
    (options : EstimateOptions) : Except EstimatorError EstimateResult :=
  match workbook with
  | .error e => .error (.XlsxError e)
  | .ok sheets =>
    let rows_per_page := options.rows_per_page.getD 40
    let wh := paper_size options
    let acc := sheets.foldl (xlsx_step wh.1 wh.2 rows_per_page) (0, [], [])
    let notes :=
      if acc.1 = 0 then acc.2.2 ++ ["Workbook appears empty or unreadable; returning 0 pages."]
      else acc.2.2
    .ok { page_count := acc.1, page_sizes := acc.2.1, notes := notes }

/-- Embeds `estimate_docx_from_content` of `estimators.rs`.  The content
reading (ZIP entry `word/document.xml` and the two substring counts) is
external and given as an input: `.error e` models an unreadable entry,
`.ok (page_breaks, paragraphs)` the two counts. -/
def estimate_docx_from_content (content : Except String (Nat × Nat))
    (options : EstimateOptions) : Except EstimatorError EstimateResult :=
  match content with
  | .error e => .error (.General ("Failed to read DOCX content: " ++ e))
  | .ok pb =>
    let page_breaks := pb.1
    let paragraphs := pb.2
    let estimated_pages :=
      if page_breaks > 0 then page_breaks + 1
      else max ((paragraphs + 25 - 1) / 25) 1
    let wh := paper_size options
    .ok { page_count := estimated_pages,
          page_sizes := List.replicate estimated_pages { width_mm := wh.1, height_mm := wh.2 },
          notes := ["DOCX document estimated at " ++ toString estimated_pages ++
                    " pages (from content analysis)",
                    "Note: Page count estimated from content structure; may not be exact"] }

/-- Embeds `estimate_docx_pages` of `estimators.rs`.  External inputs:
`zip` is the result of opening the archive, `app_xml` is `none` when
`docProps/app.xml` is absent and otherwise the result of reading and
parsing its `<Pages>` element, `content` feeds the content fallback. -/
def estimate_docx_pages (zip : Except String Unit)
    (app_xml : Option (Except String Nat))
    (content : Except String (Nat × Nat))
    (options : EstimateOptions) : Except EstimatorError EstimateResult :=
  match zip with
  | .error e => .error (.General ("Failed to open DOCX as ZIP: " ++ e))
  | .ok _ =>
    match app_xml with
    | some (.error e) => .error (.General e)
    | some (.ok page_count) =>
      let wh := paper_size options
      .ok { page_count := page_count,
            page_sizes := List.replicate page_count { width_mm := wh.1, height_mm := wh.2 },
            notes := ["DOCX document has " ++ toString page_count ++ " pages (from metadata)"] }
    | none => estimate_docx_from_content content options

/-- Embeds `estimate_pptx_from_content` of `estimators.rs`: the number of
`ppt/slides/slideN.xml` entries is external and given as an input. -/
def estimate_pptx_from_content (slide_count : Nat) :
    Except EstimatorError EstimateResult :=
  if slide_count = 0 then .error (.General ("No slides found in PPTX"))
  else
    .ok { page_count := slide_count,
          page_sizes := List.replicate slide_count { width_mm := 254, height_mm := 381 / 2 },
          notes := ["PPTX presentation has " ++ toString slide_count ++
                    " slides (counted from files)"] }

/-- Embeds `estimate_pptx_pages` of `estimators.rs`, with the same
external inputs as the DOCX estimator (the `<Slides>` metadata element
and the slide-file count). -/
def estimate_pptx_pages (zip : Except String Unit)
    (app_xml : Option (Except String Nat))
    (slide_files : Nat) : Except EstimatorError EstimateResult :=
  match zip with
  | .error e => .error (.General ("Failed to open PPTX as ZIP: " ++ e))
  | .ok _ =>
    match app_xml with
    | some (.error e) => .error (.General e)
    | some (.ok slide_count) =>
      .ok { page_count := slide_count,
            page_sizes := List.replicate slide_count { width_mm := 254, height_mm := 381 / 2 },
            notes := ["PPTX presentation has " ++ toString slide_count ++
                      " slides (from metadata)"] }
    | none => estimate_pptx_from_content slide_files

end Estimators

namespace LibRs

open Schema FileUtils

/-- Numeric `lopdf` object as consumed by `obj_to_f64` of `lib.rs`. -/
inductive LopdfNum
  | int (i : Int)
  | real (q : Rat)
  | other

/-- Embeds `obj_to_f64` of `lib.rs`: integers and reals convert, anything
else is 0. -/
def obj_to_f64 : LopdfNum → Rat
  | .int i => (i : Rat)
  | .real q => q
  | .other => 0

/-- A dictionary entry as relevant to the MediaBox/CropBox extraction:
either an array of values or some non-array object. -/
inductive LopdfEntry
  | arr (vals : List LopdfNum)
  | nonArr

/-- A page object as fetched by `doc.get_object`: a dictionary with its
optional `MediaBox` and `CropBox` entries, or some non-dictionary. -/
inductive LopdfObject
  | dict (mediabox : Option LopdfEntry) (cropbox : Option LopdfEntry)
  | nonDict

/-- One page of the `lopdf` page tree: its page number and the result of
fetching its object (`none` models a failed `get_object`). -/
structure LopdfPage where
  pnum : Nat
  obj : Option LopdfObject

/-- Width/height extraction of `estimate_pdf_pages` of `lib.rs`: the
default 595×842 points, overridden by a four-element `MediaBox` array, or
by a four-element `CropBox` array only when `MediaBox` is absent. -/
def page_box_pts (obj : Option LopdfObject) : Rat × Rat :=
  match obj with
  | some (.dict mb cb) =>
    match mb with
    | some (.arr vals) =>
      if vals.length = 4 then
        (|obj_to_f64 (vals.getD 2 .other) - obj_to_f64 (vals.getD 0 .other)|,
         |obj_to_f64 (vals.getD 3 .other) - obj_to_f64 (vals.getD 1 .other)|)
      else (595, 842)
    | some .nonArr => (595, 842)
    | none =>
      match cb with
      | some (.arr vals) =>
        if vals.length = 4 then
          (|obj_to_f64 (vals.getD 2 .other) - obj_to_f64 (vals.getD 0 .other)|,
           |obj_to_f64 (vals.getD 3 .other) - obj_to_f64 (vals.getD 1 .other)|)
        else (595, 842)
      | _ => (595, 842)
  | _ => (595, 842)

/-- Embeds `estimate_pdf_pages` of `lib.rs` (the `lopdf` full parse).
The external `lopdf` document load and page tree are an input: `.error e`
models a failed `load_mem`, `.ok pages` the page tree.  The float
formatting of the notes is abstracted to `toString` of the exact
rationals. -/
def estimate_pdf_pages (doc : Except String (List LopdfPage)) :
    Except EstimatorError EstimateResult :=
  match doc with
  | .error e => .error (.PdfError e)
  | .ok pages =>
    let acc := pages.foldl (fun (acc : List PageSizeMm × List String) page =>
      let pts := page_box_pts page.obj
      let width_mm := mm_from_pt pts.1
      let height_mm := mm_from_pt pts.2
      (acc.1 ++ [{ width_mm := width_mm, height_mm := height_mm }],
       acc.2 ++ ["Page " ++ toString page.pnum ++ ": " ++ toString width_mm ++
                 " x " ++ toString height_mm ++ " mm"])) ([], [])
    .ok { page_count := acc.1.length, page_sizes := acc.1, notes := acc.2 }

end LibRs

namespace Assembly

open Schema FileUtils Estimators

/-- Results of all external-library operations `estimate_document` may
consult, bundled as one input: the std UTF-8 views of the bytes, the ZIP
probe of type detection, and the parsed forms consumed by the XLSX, DOCX
and PPTX estimators. -/
structure ExternalData where
  lossy : List Char
  utf8 : Option (List Char)
  zip : ZipProbe
  xlsx : Except String (List SheetData)
  docx_zip : Except String Unit
  docx_app_xml : Option (Except String Nat)
  docx_content : Except String (Nat × Nat)
  pptx_zip : Except String Unit
  pptx_app_xml : Option (Except String Nat)
  pptx_slide_files : Nat

/-- Value returned over the WASM boundary by `estimate_document`:
either a serialized `EstimateResult` or the JSON object
`{error: ..., detected: ...}` (the JSON serialization itself, which
cannot fail on these data, is abstracted away). -/
inductive JsOutput
  | ok (result : EstimateResult)
  | errorObj (error : String) (detected : String)
deriving DecidableEq

/-- Embeds `estimate_document` of `assembly.rs`: detect the type, run the
matching estimator, and surface either the result or the error string
with the detected type. -/
def estimate_document (bytes : List Nat) (filename : Option String)
    (options : EstimateOptions) (ext : ExternalData) : JsOutput :=
  let detected := detect_type filename bytes ext.zip
  let result : Except String EstimateResult :=
    if detected = "pdf" then
      (Estimators.estimate_pdf_pages ext.lossy).mapError EstimatorError.toMessage
    else if detected = "xlsx" then
      (estimate_xlsx_pages ext.xlsx options).mapError EstimatorError.toMessage
    else if detected = "docx" then
      (estimate_docx_pages ext.docx_zip ext.docx_app_xml ext.docx_content options).mapError
        EstimatorError.toMessage
    else if detected = "pptx" then
      (estimate_pptx_pages ext.pptx_zip ext.pptx_app_xml ext.pptx_slide_files).mapError
        EstimatorError.toMessage
    else if detected = "txt" then .ok (estimate_text_pages ext.utf8 options)
    else if detected = "markdown" then .ok (estimate_markdown_pages ext.utf8 options)
    else .error ("Unsupported or unrecognized format: " ++ detected)
  match result with
  | .ok est => .ok est
  | .error msg => .errorObj msg detected

end Assembly

/-! Concrete input buffers used to settle the claims. -/

/-- A 60-byte buffer: `/MediaBox[` followed by 50 spaces.  On it the
whitespace skip of the number-collection loop runs to
`search_end = bytes.len() = 60` and the source then evaluates
`bytes[60]`. -/
def mediabox_truncated_input : List Nat :=
  str_bytes ("/MediaBox[") ++ List.replicate 50 32

/-- A 150-byte well-formed single-object-chain PDF whose Pages object
carries `/Count 2000000`: startxref points at offset 0, the trailer names
`/Root 1 0 R`, object 1 names `/Pages 2 0 R`, and object 2 carries the
count. -/
def specfollowing_bigcount_pdf : List Nat :=
  str_bytes ("%PDF-1.4\n1 0 obj\n<< /Type /Catalog /Pages 2 0 R >>\nendobj\n2 0 obj\n<< /Type /Pages /Count 2000000 >>\nendobj\ntrailer\n<< /Root 1 0 R >>\nstartxref\n0\n%%EOF")

/-- The same chain with `/Count 0` in the Pages object. -/
def count_zero_pdf : List Nat :=
  str_bytes ("%PDF-1.4\n1 0 obj\n<< /Type /Catalog /Pages 2 0 R >>\nendobj\n2 0 obj\n<< /Type /Pages /Count 0 >>\nendobj\ntrailer\n<< /Root 1 0 R >>\nstartxref\n0\n%%EOF")

/-- A 20-byte buffer whose only `/Count 5` begins 8 bytes before the end:
within the final 20 bytes, hence outside the scanned range of
`search_all_count_values`. -/
def count_in_tail_buffer : List Nat :=
  str_bytes ("AAAAAAAAAAAA/Count 5")

/-- A root Pages node with `/Count 5` and two nested kid Pages nodes with
counts 3 and 2 (the concrete example of the spec), padded so no
occurrence falls in the final 20 bytes. -/
def nested_pages_pdf : List Nat :=
  str_bytes ("1 0 obj << /Type /Pages /Kids [2 0 R 3 0 R] /Count 5 >> endobj\n2 0 obj << /Type /Pages /Count 3 >> endobj\n3 0 obj << /Type /Pages /Count 2 >> endobj\n          ")

/-- A buffer whose only `/Count 7` lies 9 bytes BEFORE its only `/Pages`
occurrence, with nothing but padding after it. -/
def count_before_pages_buffer : List Nat :=
  str_bytes ("/Count 7 /Pages") ++ List.replicate 30 32

/-- A buffer with `/Count 4` shortly after its `/Pages` occurrence. -/
def pages_then_count_buffer : List Nat :=
  str_bytes ("/Pages /Count 4") ++ List.replicate 30 32

/-- The four magic bytes `%PDF`. -/
def pdf_magic_bytes : List Nat := [37, 80, 68, 70]

/-- External data for a run on `pdf_magic_bytes`: the lossy view is the
four characters `%PDF` (pure ASCII), every other external result is
irrelevant to the PDF path. -/
def pdf_magic_external : Assembly.ExternalData :=
  { lossy := ("%PDF").toList, utf8 := none,
    zip := { opens := false, has_word_document := false,
             has_ppt_presentation := false, has_xl_workbook := false },
    xlsx := .error ("unused"), docx_zip := .error ("unused"), docx_app_xml := none,
    docx_content := .error ("unused"), pptx_zip := .error ("unused"),
    pptx_app_xml := none, pptx_slide_files := 0 }

/-- The invariant claimed for every produced `EstimateResult`: the sizes
vector has exactly `page_count` entries, and is empty when the count is
zero. -/
def sizes_invariant (r : Schema.EstimateResult) : Prop :=
  r.page_sizes.length = r.page_count ∧ (r.page_count = 0 → r.page_sizes = [])

/-! Helper lemmas about the fold-based maxima of the heuristic
strategies. -/

namespace UltraFastPdf

theorem foldl_max_le_init (l : List Nat) : ∀ a : Nat, a ≤ l.foldl Nat.max a := by
  induction l with
  | nil => intro a; exact Nat.le_refl a
  | cons x xs ih =>
    intro a
    exact Nat.le_trans (Nat.le_max_left a x) (ih (Nat.max a x))

theorem mem_le_foldl_max (l : List Nat) : ∀ (a x : Nat), x ∈ l → x ≤ l.foldl Nat.max a := by
  induction l with
  | nil => intro a x hx; cases hx
  | cons y ys ih =>
    intro a x hx
    rcases List.mem_cons.mp hx with h | h
    · subst h
      exact Nat.le_trans (Nat.le_max_right a x) (foldl_max_le_init ys (Nat.max a x))
    · exact ih (Nat.max a y) x h

theorem foldl_max_mem (l : List Nat) : ∀ a : Nat, l.foldl Nat.max a = a ∨ l.foldl Nat.max a ∈ l := by
  induction l with
  | nil => intro a; left; rfl
  | cons y ys ih =>
    intro a
    rcases ih (Nat.max a y) with h | h
    · rcases Nat.le_total a y with hle | hle
      · right
        have hm : Nat.max a y = y := Nat.max_eq_right hle
        rw [List.foldl_cons, h, hm]
        exact List.mem_cons_self y ys
      · left
        have hm : Nat.max a y = a := Nat.max_eq_left hle
        rw [List.foldl_cons, h, hm]
    · right; exact List.mem_cons_of_mem y h

theorem list_max_ub (l : List Nat) (x : Nat) (hx : x ∈ l) : x ≤ list_max l :=
  mem_le_foldl_max l 0 x hx

theorem list_max_mem_of_pos (l : List Nat) (h : 0 < list_max l) : list_max l ∈ l := by
  rcases foldl_max_mem l 0 with h0 | hmem
  · rw [list_max] at h; omega
  · exact hmem

/-- Characterization of the maximum: for a list of positive values,
`list_max l = m` with `l` non-empty holds exactly when `m` is a member
and an upper bound. -/
theorem list_max_spec (l : List Nat) (m : Nat) (hm : 0 < m) :
    (l ≠ [] ∧ list_max l = m) ↔ (m ∈ l ∧ ∀ x ∈ l, x ≤ m) := by
  constructor
  · rintro ⟨hne, hmax⟩
    have hmem : list_max l ∈ l := list_max_mem_of_pos l (hmax ▸ hm)
    exact ⟨hmax ▸ hmem, fun x hx => hmax ▸ list_max_ub l x hx⟩
  · rintro ⟨hmem, hub⟩
    refine ⟨fun hnil => by simp [hnil] at hmem, ?_⟩
    have h1 : m ≤ list_max l := list_max_ub l m hmem
    have h2 : list_max l ∈ l := list_max_mem_of_pos l (Nat.lt_of_lt_of_le hm h1)
    exact Nat.le_antisymm (hub _ h2) h1

/-- Result shape shared by `search_all_count_values`,
`search_count_without_slash` and the two spec-modelled searches: `some m`
exactly when `m` is a member and an upper bound of the (all-positive)
collected counts. -/
theorem counts_result_eq_some_iff (counts : List Nat) (hpos : ∀ x ∈ counts, 0 < x) (m : Nat) :
    ((if counts.isEmpty then none
      else if list_max counts > 0 then some (list_max counts) else none) = some m) ↔
    (m ∈ counts ∧ ∀ x ∈ counts, x ≤ m) := by
  constructor
  · intro h
    have hne : counts ≠ [] := by
      intro hnil; rw [hnil] at h; simp at h
    rw [if_neg (by simpa [List.isEmpty_iff] using hne)] at h
    by_cases hpos' : list_max counts > 0
    · rw [if_pos hpos'] at h
      have hm : list_max counts = m := by injection h
      have h0 : 0 < m := hm ▸ hpos'
      exact (list_max_spec counts m h0).mp ⟨hne, hm⟩
    · rw [if_neg hpos'] at h; cases h
  · intro ⟨hmem, hub⟩
    have h0 : 0 < m := hpos m hmem
    have := (list_max_spec counts m h0).mpr ⟨hmem, hub⟩
    rw [if_neg (by simpa [List.isEmpty_iff] using this.1), this.2, if_pos h0]

/-- Bound side of the shared result shape: a returned maximum inherits
any upper bound of the collected counts. -/
theorem counts_result_bound (counts : List Nat) (hpos : ∀ x ∈ counts, 0 < x)
    (hb : ∀ x ∈ counts, x < 1000000) (m : Nat)
    (h : (if counts.isEmpty then none
          else if list_max counts > 0 then some (list_max counts) else none) = some m) :
    0 < m ∧ m < 1000000 := by
  have hiff := (counts_result_eq_some_iff counts hpos m).mp h
  exact ⟨hpos m hiff.1, hb m hiff.1⟩

theorem count_occurrence_value_pos (bytes : List Nat) (i c : Nat)
    (h : count_occurrence_value bytes i = some c) : 0 < c ∧ c < 1000000 := by
  simp only [count_occurrence_value] at h
  split at h
  · split at h
    · next hcond =>
      injection h with h'
      rw [h'] at hcond
      simp only [Bool.and_eq_true, decide_eq_true_eq] at hcond
      exact ⟨hcond.1.2, hcond.2⟩
    · cases h
  · cases h

theorem count_noslash_occurrence_value_pos (bytes : List Nat) (i c : Nat)
    (h : count_noslash_occurrence_value bytes i = some c) : 0 < c ∧ c < 1000000 := by
  simp only [count_noslash_occurrence_value] at h
  split at h
  · split at h
    · next hcond =>
      injection h with h'
      rw [h'] at hcond
      simp only [Bool.and_eq_true, decide_eq_true_eq] at hcond
      exact ⟨hcond.1.2, hcond.2⟩
    · cases h
  · cases h

theorem pages_occurrence_value_pos (bytes : List Nat) (i c : Nat)
    (h : pages_occurrence_value bytes i = some c) : 0 < c ∧ c < 1000000 := by
  simp only [pages_occurrence_value] at h
  split at h
  · split at h
    · split at h
      · next hcond => injection h with h'; rw [h'] at hcond; exact hcond
      · cases h
    · cases h
  · cases h

theorem pages_occurrence_value_found (bytes : List Nat) (i c : Nat)
    (h : pages_occurrence_value bytes i = some c) : pages_found bytes i = true := by
  simp only [pages_occurrence_value] at h
  unfold pages_found
  split at h
  · next hm =>
    split at h
    · next heq => simp [hm, heq]
    · cases h
  · cases h

theorem stpp_update_valid (s1 c : Nat) (hc : c < 1000000) :
    (if c > s1 && c < 1000000 then c else s1) = Nat.max s1 c := by
  by_cases hgt : s1 < c
  · have hmax : Nat.max s1 c = c := Nat.max_eq_right (Nat.le_of_lt hgt)
    simp [hgt, hc, hmax]
  · have hle : c ≤ s1 := Nat.le_of_not_lt hgt
    have hmax : Nat.max s1 c = s1 := Nat.max_eq_left hle
    simp [hgt, hmax]

theorem stpp_update_invalid (s1 c : Nat) (hc : ¬(0 < c ∧ c < 1000000)) :
    (if c > s1 && c < 1000000 then c else s1) = s1 := by
  rcases Nat.eq_zero_or_pos c with h0 | hpos
  · subst h0; simp
  · have hlt : ¬ c < 1000000 := fun hlt => hc ⟨hpos, hlt⟩
    simp [hlt]

/-- Relates the imperative fold of `search_type_pages_pattern` to the
declarative view: the running maximum equals the fold of `Nat.max` over
the valid occurrence values, and the flag records whether any occurrence
returned a count. -/
theorem stpp_fold_spec (bytes : List Nat) : ∀ (l : List Nat) (s : Nat × Bool),
    ((l.foldl (stpp_body bytes) s).1 =
      (l.filterMap (pages_occurrence_value bytes)).foldl Nat.max s.1) ∧
    ((l.foldl (stpp_body bytes) s).2 = (s.2 || l.any (pages_found bytes))) := by
  intro l
  induction l with
  | nil => intro s; simp
  | cons i t ih =>
    intro s
    rw [List.foldl_cons, List.filterMap_cons, List.any_cons]
    by_cases hm : matches_pattern bytes i pages_pat
    · cases hf : find_count_after_position bytes i (min (i + 2000) bytes.length) with
      | none =>
        have hb : stpp_body bytes s i = s := by simp [stpp_body, hm, hf]
        have ho : pages_occurrence_value bytes i = none := by
          simp [pages_occurrence_value, hm, hf]
        have hpf : pages_found bytes i = false := by simp [pages_found, hm, hf]
        rw [hb, ho, hpf]
        simpa using ih s
      | some c =>
        have hpf : pages_found bytes i = true := by simp [pages_found, hm, hf]
        by_cases hc : 0 < c ∧ c < 1000000
        · have ho : pages_occurrence_value bytes i = some c := by
            simp [pages_occurrence_value, hm, hf, hc]
          have hb : stpp_body bytes s i = (Nat.max s.1 c, true) := by
            simp only [stpp_body, hm, if_true, hf]
            rw [stpp_update_valid s.1 c hc.2]
          rw [hb, ho, hpf]
          rcases ih (Nat.max s.1 c, true) with ⟨ih1, ih2⟩
          refine ⟨by simpa using ih1, ?_⟩
          rw [ih2]
          simp
        · have ho : pages_occurrence_value bytes i = none := by
            simp only [pages_occurrence_value, hm, if_true, hf]
            rw [if_neg hc]
          have hb : stpp_body bytes s i = (s.1, true) := by
            simp only [stpp_body, hm, if_true, hf]
            rw [stpp_update_invalid s.1 c hc]
          rw [hb, ho, hpf]
          rcases ih (s.1, true) with ⟨ih1, ih2⟩
          refine ⟨by simpa using ih1, ?_⟩
          rw [ih2]
          simp
    · have hb : stpp_body bytes s i = s := by simp [stpp_body, hm]
      have ho : pages_occurrence_value bytes i = none := by
        simp [pages_occurrence_value, hm]
      have hpf : pages_found bytes i = false := by simp [pages_found, hm]
      rw [hb, ho, hpf]
      simpa using ih s

/-- Characterization of `search_type_pages_pattern`: it returns `some n`
exactly when `n` is a valid occurrence value and an upper bound of all
valid occurrence values (over the scanned positions `0 .. len - 20`). -/
theorem stpp_eq_some_iff (bytes : List Nat) (n : Nat) :
    search_type_pages_pattern bytes = some n ↔
      (n ∈ (List.range (bytes.length - 20)).filterMap (pages_occurrence_value bytes) ∧
       ∀ x ∈ (List.range (bytes.length - 20)).filterMap (pages_occurrence_value bytes), x ≤ n) := by
  have hs := stpp_fold_spec bytes (List.range (bytes.length - 20)) (0, false)
  set valid := (List.range (bytes.length - 20)).filterMap (pages_occurrence_value bytes) with hvalid
  have h1 : ((List.range (bytes.length - 20)).foldl (stpp_body bytes) (0, false)).1 =
      list_max valid := hs.1
  constructor
  · intro h
    simp only [search_type_pages_pattern] at h
    split at h
    · next hcond =>
      injection h with h'
      rw [h1] at h'
      simp only [Bool.and_eq_true, decide_eq_true_eq] at hcond
      have hpos : 0 < list_max valid := by
        have := hcond.2
        rw [h1] at this
        omega
      subst h'
      exact ⟨list_max_mem_of_pos valid hpos, fun x hx => list_max_ub valid x hx⟩
    · cases h
  · intro ⟨hmem, hub⟩
    obtain ⟨i, hirange, hocc⟩ := List.mem_filterMap.mp hmem
    have hnpos : 0 < n := (pages_occurrence_value_pos bytes i n hocc).1
    have hle : n ≤ list_max valid := list_max_ub valid n hmem
    have hmaxmem : list_max valid ∈ valid :=
      list_max_mem_of_pos valid (Nat.lt_of_lt_of_le hnpos hle)
    have hmax : list_max valid = n := Nat.le_antisymm (hub _ hmaxmem) hle
    have hany : (List.range (bytes.length - 20)).any (pages_found bytes) = true :=
      List.any_eq_true.mpr ⟨i, hirange, pages_occurrence_value_found bytes i n hocc⟩
    simp only [search_type_pages_pattern]
    rw [if_pos]
    · rw [h1, hmax]
    · rw [hs.2, h1, hmax, hany]
      simp [hnpos]

/-- Any count returned by `search_type_pages_pattern` is strictly between
0 and 1 000 000. -/
theorem stpp_bound (bytes : List Nat) (n : Nat)
    (h : search_type_pages_pattern bytes = some n) : 0 < n ∧ n < 1000000 := by
  obtain ⟨hmem, -⟩ := (stpp_eq_some_iff bytes n).mp h
  obtain ⟨i, -, hocc⟩ := List.mem_filterMap.mp hmem
  exact pages_occurrence_value_pos bytes i n hocc

/-- Characterization of `search_all_count_values` over its scanned
range. -/
theorem sacv_eq_some_iff (bytes : List Nat) (n : Nat) :
    search_all_count_values bytes = some n ↔
      (n ∈ (List.range (bytes.length - 20)).filterMap (count_occurrence_value bytes) ∧
       ∀ x ∈ (List.range (bytes.length - 20)).filterMap (count_occurrence_value bytes), x ≤ n) := by
  have hpos : ∀ x ∈ (List.range (bytes.length - 20)).filterMap (count_occurrence_value bytes),
      0 < x := by
    intro x hx
    obtain ⟨i, -, hi⟩ := List.mem_filterMap.mp hx
    exact (count_occurrence_value_pos bytes i x hi).1
  simp only [search_all_count_values]
  exact counts_result_eq_some_iff _ hpos n

/-- Any count returned by `search_all_count_values` is strictly between 0
and 1 000 000. -/
theorem sacv_bound (bytes : List Nat) (n : Nat)
    (h : search_all_count_values bytes = some n) : 0 < n ∧ n < 1000000 := by
  obtain ⟨hmem, -⟩ := (sacv_eq_some_iff bytes n).mp h
  obtain ⟨i, -, hocc⟩ := List.mem_filterMap.mp hmem
  exact count_occurrence_value_pos bytes i n hocc

/-- Any count returned by `search_count_without_slash` is strictly
between 0 and 1 000 000. -/
theorem scws_bound (bytes : List Nat) (n : Nat)
    (h : search_count_without_slash bytes = some n) : 0 < n ∧ n < 1000000 := by
  have hpos : ∀ x ∈ (List.range (bytes.length - 20)).filterMap
      (count_noslash_occurrence_value bytes), 0 < x := by
    intro x hx
    obtain ⟨i, -, hi⟩ := List.mem_filterMap.mp hx
    exact (count_noslash_occurrence_value_pos bytes i x hi).1
  have hb : ∀ x ∈ (List.range (bytes.length - 20)).filterMap
      (count_noslash_occurrence_value bytes), x < 1000000 := by
    intro x hx
    obtain ⟨i, -, hi⟩ := List.mem_filterMap.mp hx
    exact (count_noslash_occurrence_value_pos bytes i x hi).2
  simp only [search_count_without_slash] at h
  exact counts_result_bound _ hpos hb n h

theorem spwlw_step_bound (s : Nat × Bool) (c : Option Nat) :
    (spwlw_step s c).1 = s.1 ∨ (spwlw_step s c).1 < 1000000 := by
  cases c with
  | none => left; rfl
  | some count =>
    simp only [spwlw_step]
    split
    · next hcond =>
      right
      simp only [Bool.and_eq_true, decide_eq_true_eq] at hcond
      exact hcond.2
    · left; rfl

theorem spwlw_body_bound (bytes : List Nat) (s : Nat × Bool) (i : Nat) :
    (spwlw_body bytes s i).1 = s.1 ∨ (spwlw_body bytes s i).1 < 1000000 := by
  simp only [spwlw_body]
  split
  · rcases spwlw_step_bound (spwlw_step s (find_count_in_range bytes (i - 2000) i))
        (find_count_after_position bytes i (min (i + 5000) bytes.length)) with h | h
    · rw [h]
      exact spwlw_step_bound s (find_count_in_range bytes (i - 2000) i)
    · right; exact h
  · left; rfl

theorem spwlw_fold_bound (bytes : List Nat) : ∀ (l : List Nat) (s : Nat × Bool),
    (l.foldl (spwlw_body bytes) s).1 = s.1 ∨ (l.foldl (spwlw_body bytes) s).1 < 1000000 := by
  intro l
  induction l with
  | nil => intro s; left; rfl
  | cons i t ih =>
    intro s
    rw [List.foldl_cons]
    rcases ih (spwlw_body bytes s i) with h | h
    · rw [h]
      exact spwlw_body_bound bytes s i
    · right; exact h

/-- Any count returned by `search_pages_with_large_window` is strictly
between 0 and 1 000 000. -/
theorem spwlw_bound (bytes : List Nat) (n : Nat)
    (h : search_pages_with_large_window bytes = some n) : 0 < n ∧ n < 1000000 := by
  simp only [search_pages_with_large_window] at h
  split at h
  · next hcond =>
    injection h with h'
    simp only [Bool.and_eq_true, decide_eq_true_eq] at hcond
    subst h'
    rcases spwlw_fold_bound bytes (List.range (bytes.length - 50)) (0, false) with h0 | hb
    · rw [h0] at hcond; omega
    · exact ⟨hcond.2, hb⟩
  · cases h

theorem efn_digits_le (l : List Nat) : ∀ (num : Nat) (found : Bool) (m : Nat),
    efn_digits l num found = some m → num ≤ 100000000 → m ≤ 100000000 := by
  induction l with
  | nil =>
    intro num found m h hle
    simp only [efn_digits] at h
    split at h
    · injection h with h'; omega
    · cases h
  | cons b t ih =>
    intro num found m h hle
    simp only [efn_digits] at h
    split at h
    · split at h
      · cases h
      · next hgt => exact ih _ _ _ h (by omega)
    · split at h
      · injection h with h'; omega
      · cases h

/-- Any number returned by `extract_first_number` is at most
100 000 000 (not 1 000 000). -/
theorem extract_first_number_le (bytes : List Nat) (m : Nat)
    (h : extract_first_number bytes = some m) : m ≤ 100000000 := by
  simp only [extract_first_number] at h
  exact efn_digits_le _ 0 false m h (by omega)

theorem find_count_value_le (bytes : List Nat) (m : Nat)
    (h : find_count_value bytes = some m) : m ≤ 100000000 := by
  simp only [find_count_value] at h
  split at h
  · exact extract_first_number_le _ _ h
  · cases h

set_option maxRecDepth 8000 in
/-- Any count returned by the SpecFollowing chain is at most
100 000 000: the final `/Count` parse goes through
`extract_first_number`. -/
theorem parse_from_end_le (bytes : List Nat) (m : Nat)
    (h : parse_from_end_of_file bytes = some m) : m ≤ 100000000 := by
  simp only [parse_from_end_of_file] at h
  split at h
  · cases h
  · split at h
    · cases h
    · split at h
      · cases h
      · split at h
        · cases h
        · split at h
          · cases h
          · split at h
            · cases h
            · split at h
              · cases h
              · split at h
                · cases h
                · split at h
                  · cases h
                  · exact find_count_value_le _ _ h

end UltraFastPdf

/-! Claim theorems. -/

set_option maxRecDepth 40000 in
/-- C1: the claim states that every extraction operation, including
`extract_mediabox_ultra_fast`, terminates without panicking or reading
out of bounds on every input.  The code violates this: on the 60-byte
buffer `/MediaBox[` followed by 50 spaces, the whitespace skip of the
number-collection loop reaches `search_end = bytes.len() = 60` and the
unguarded closing-bracket test then evaluates `bytes[60]`, an
out-of-bounds index that panics in Rust.  This theorem evaluates the
embedded function at that failing input. -/
theorem c1_mediabox_out_of_bounds_read :
    UltraFastPdf.extract_mediabox_ultra_fast mediabox_truncated_input =
      .error UltraFastPdf.RustPanic.indexOutOfBounds := by
  rfl

set_option maxRecDepth 100000 in
/-- C2 counterexample: the claim states that every strategy, including
the SpecFollowing fast path, returns no count above 1 000 000.  On a
well-formed 150-byte PDF whose Pages object carries `/Count 2000000`,
the SpecFollowing chain succeeds and `count_pages_ultra_fast` returns
2 000 000, which exceeds 1 000 000: `extract_first_number` bounds its
parses by 100 000 000, not 1 000 000. -/
theorem c2_specfollowing_exceeds_million :
    UltraFastPdf.parse_from_end_of_file specfollowing_bigcount_pdf = some 2000000 ∧
    UltraFastPdf.count_pages_ultra_fast specfollowing_bigcount_pdf = some 2000000 ∧
    ¬ (2000000 : Nat) ≤ 1000000 :=
  ⟨by rfl, by rfl, by omega⟩

/-- C2 amended: each of the four fallback strategies returns only counts
strictly below 1 000 000, but the SpecFollowing fast path — whose numbers
are parsed by `extract_first_number`, which also parses xref offsets —
only rejects parses exceeding 100 000 000, so its counts are bounded by
100 000 000 instead; parsing the text `/Count 99999999999999` still
yields "not found" (the parse aborts when the accumulated value exceeds
the bound) and cannot panic. -/
theorem c2_amended_parse_bounds :
    (∀ (b : List Nat) (n : Nat),
      UltraFastPdf.search_type_pages_pattern b = some n → n < 1000000) ∧
    (∀ (b : List Nat) (n : Nat),
      UltraFastPdf.search_all_count_values b = some n → n < 1000000) ∧
    (∀ (b : List Nat) (n : Nat),
      UltraFastPdf.search_pages_with_large_window b = some n → n < 1000000) ∧
    (∀ (b : List Nat) (n : Nat),
      UltraFastPdf.search_count_without_slash b = some n → n < 1000000) ∧
    (∀ (b : List Nat) (n : Nat),
      UltraFastPdf.parse_from_end_of_file b = some n → n ≤ 100000000) ∧
    UltraFastPdf.find_count_value (str_bytes ("/Count 99999999999999")) = none :=
  ⟨fun b n h => (UltraFastPdf.stpp_bound b n h).2,
   fun b n h => (UltraFastPdf.sacv_bound b n h).2,
   fun b n h => (UltraFastPdf.spwlw_bound b n h).2,
   fun b n h => (UltraFastPdf.scws_bound b n h).2,
   fun b n h => UltraFastPdf.parse_from_end_le b n h,
   by rfl⟩

set_option maxRecDepth 100000 in
/-- Witness for C2: the amended bound applied at the concrete buffer
whose SpecFollowing count is 2 000 000. -/
theorem c2_amended_parse_bounds_witness : (2000000 : Nat) ≤ 100000000 :=
  c2_amended_parse_bounds.2.2.2.2.1 specfollowing_bigcount_pdf 2000000 (by rfl)

/-- C3: `count_pages_ultra_fast` runs its strategies strictly in the
order SpecFollowing, TypePagesProximity, GlobalMaxCount, ExpandedWindow,
CountWithoutSlash and returns the first non-empty result: a later
strategy's result is returned only when every earlier strategy returned
none, and the overall result is empty exactly when all five strategies
return none. -/
theorem c3_strategy_order (b : List Nat) :
    (∀ n, UltraFastPdf.parse_from_end_of_file b = some n →
      UltraFastPdf.count_pages_ultra_fast b = some n) ∧
    (UltraFastPdf.parse_from_end_of_file b = none →
      ∀ n, UltraFastPdf.search_type_pages_pattern b = some n →
        UltraFastPdf.count_pages_ultra_fast b = some n) ∧
    (UltraFastPdf.parse_from_end_of_file b = none →
      UltraFastPdf.search_type_pages_pattern b = none →
      ∀ n, UltraFastPdf.search_all_count_values b = some n →
        UltraFastPdf.count_pages_ultra_fast b = some n) ∧
    (UltraFastPdf.parse_from_end_of_file b = none →
      UltraFastPdf.search_type_pages_pattern b = none →
      UltraFastPdf.search_all_count_values b = none →
      ∀ n, UltraFastPdf.search_pages_with_large_window b = some n →
        UltraFastPdf.count_pages_ultra_fast b = some n) ∧
    (UltraFastPdf.parse_from_end_of_file b = none →
      UltraFastPdf.search_type_pages_pattern b = none →
      UltraFastPdf.search_all_count_values b = none →
      UltraFastPdf.search_pages_with_large_window b = none →
      ∀ n, UltraFastPdf.search_count_without_slash b = some n →
        UltraFastPdf.count_pages_ultra_fast b = some n) ∧
    (UltraFastPdf.count_pages_ultra_fast b = none ↔
      UltraFastPdf.parse_from_end_of_file b = none ∧
      UltraFastPdf.search_type_pages_pattern b = none ∧
      UltraFastPdf.search_all_count_values b = none ∧
      UltraFastPdf.search_pages_with_large_window b = none ∧
      UltraFastPdf.search_count_without_slash b = none) := by
  refine ⟨?_, ?_, ?_, ?_, ?_, ?_, ?_⟩
  · intro n h; simp [UltraFastPdf.count_pages_ultra_fast, h]
  · intro h1 n h; simp [UltraFastPdf.count_pages_ultra_fast, h1, h]
  · intro h1 h2 n h; simp [UltraFastPdf.count_pages_ultra_fast, h1, h2, h]
  · intro h1 h2 h3 n h; simp [UltraFastPdf.count_pages_ultra_fast, h1, h2, h3, h]
  · intro h1 h2 h3 h4 n h; simp [UltraFastPdf.count_pages_ultra_fast, h1, h2, h3, h4, h]
  · intro h
    cases h1 : UltraFastPdf.parse_from_end_of_file b with
    | some c => simp [UltraFastPdf.count_pages_ultra_fast, h1] at h
    | none =>
      cases h2 : UltraFastPdf.search_type_pages_pattern b with
      | some c => simp [UltraFastPdf.count_pages_ultra_fast, h1, h2] at h
      | none =>
        cases h3 : UltraFastPdf.search_all_count_values b with
        | some c => simp [UltraFastPdf.count_pages_ultra_fast, h1, h2, h3] at h
        | none =>
          cases h4 : UltraFastPdf.search_pages_with_large_window b with
          | some c => simp [UltraFastPdf.count_pages_ultra_fast, h1, h2, h3, h4] at h
          | none =>
            cases h5 : UltraFastPdf.search_count_without_slash b with
            | some c => simp [UltraFastPdf.count_pages_ultra_fast, h1, h2, h3, h4, h5] at h
            | none => exact ⟨rfl, rfl, rfl, rfl, rfl⟩

  · rintro ⟨h1, h2, h3, h4, h5⟩
    simp [UltraFastPdf.count_pages_ultra_fast, h1, h2, h3, h4, h5]

/-- Witness for C3: on the empty buffer all five strategies return none
and so does the orchestrator. -/
theorem c3_strategy_order_witness : UltraFastPdf.count_pages_ultra_fast [] = none :=
  (c3_strategy_order []).2.2.2.2.2.mpr ⟨rfl, rfl, rfl, rfl, rfl⟩

set_option maxRecDepth 40000 in
/-- C4 counterexample: the claim states that GlobalMaxCount scans the
ENTIRE buffer for every `/Count <n>` occurrence.  On a 20-byte buffer
whose only `/Count 5` begins 8 bytes before the end, the spec-modelled
whole-buffer scan yields 5, but `search_all_count_values` — whose loop
stops 20 bytes before the end — returns none. -/
theorem c4_tail_occurrence_missed :
    UltraFastPdf.search_all_count_values count_in_tail_buffer = none ∧
    UltraFastPdf.global_max_count_spec count_in_tail_buffer = some 5 :=
  ⟨by rfl, by rfl⟩

set_option maxRecDepth 100000 in
/-- C4 amended: `search_all_count_values` scans the positions up to 20
bytes before the end of the buffer (not the entire buffer) for `/Count`
occurrences and returns the maximum contributed value — a value is
contributed when digits follow and `0 < n < 1 000 000` — returning none
exactly when no scanned occurrence contributes; on the concrete nested
example (root count 5, kid counts 3 and 2) it returns 5. -/
theorem c4_amended_global_max :
    (∀ (b : List Nat) (n : Nat),
      UltraFastPdf.search_all_count_values b = some n ↔
        ((∃ i, i < b.length - 20 ∧ UltraFastPdf.count_occurrence_value b i = some n) ∧
         (∀ i, i < b.length - 20 → ∀ m,
            UltraFastPdf.count_occurrence_value b i = some m → m ≤ n))) ∧
    UltraFastPdf.search_all_count_values nested_pages_pdf = some 5 := by
  constructor
  · intro b n
    rw [UltraFastPdf.sacv_eq_some_iff]
    constructor
    · rintro ⟨hmem, hub⟩
      obtain ⟨i, hir, hocc⟩ := List.mem_filterMap.mp hmem
      refine ⟨⟨i, List.mem_range.mp hir, hocc⟩, ?_⟩
      intro j hj m hm
      exact hub m (List.mem_filterMap.mpr ⟨j, List.mem_range.mpr hj, hm⟩)
    · rintro ⟨⟨i, hi, hocc⟩, hub⟩
      refine ⟨List.mem_filterMap.mpr ⟨i, List.mem_range.mpr hi, hocc⟩, ?_⟩
      intro x hx
      obtain ⟨j, hjr, hj⟩ := List.mem_filterMap.mp hx
      exact hub j (List.mem_range.mp hjr) x hj
  · rfl

set_option maxRecDepth 100000 in
/-- Witness for C4: the characterization applied at the nested example,
at the root occurrence (position 44). -/
theorem c4_amended_global_max_witness : (5 : Nat) ≤ 5 :=
  ((c4_amended_global_max.1 nested_pages_pdf 5).mp (by rfl)).2 44 (by decide) 5 (by rfl)

set_option maxRecDepth 40000 in
/-- C5 counterexample: the claim states that the TypePagesProximity
strategy searches a window in BOTH directions around each `/Pages`
occurrence.  On a buffer whose only `/Count 7` lies 9 bytes before its
only `/Pages`, the spec-modelled both-direction search yields 7, but
`search_type_pages_pattern` — which searches only the 2000 bytes AFTER
each occurrence — returns none. -/
theorem c5_no_backward_search :
    UltraFastPdf.search_type_pages_pattern count_before_pages_buffer = none ∧
    UltraFastPdf.type_pages_proximity_spec count_before_pages_buffer = some 7 :=
  ⟨by rfl, by rfl⟩

/-- C5 amended: for every `/Pages` occurrence beginning more than 20
bytes before the end of the buffer, `search_type_pages_pattern` searches
only FORWARD, in the 2000 bytes after the occurrence, for the first
`/Count`; it returns the maximum value so found among those with
`0 < n < 1 000 000`, and none exactly when no occurrence yields such a
value. -/
theorem c5_amended_forward_only :
    ∀ (b : List Nat) (n : Nat),
      UltraFastPdf.search_type_pages_pattern b = some n ↔
        ((∃ i, i < b.length - 20 ∧ UltraFastPdf.pages_occurrence_value b i = some n) ∧
         (∀ i, i < b.length - 20 → ∀ m,
            UltraFastPdf.pages_occurrence_value b i = some m → m ≤ n)) := by
  intro b n
  rw [UltraFastPdf.stpp_eq_some_iff]
  constructor
  · rintro ⟨hmem, hub⟩
    obtain ⟨i, hir, hocc⟩ := List.mem_filterMap.mp hmem
    refine ⟨⟨i, List.mem_range.mp hir, hocc⟩, ?_⟩
    intro j hj m hm
    exact hub m (List.mem_filterMap.mpr ⟨j, List.mem_range.mpr hj, hm⟩)
  · rintro ⟨⟨i, hi, hocc⟩, hub⟩
    refine ⟨List.mem_filterMap.mpr ⟨i, List.mem_range.mpr hi, hocc⟩, ?_⟩
    intro x hx
    obtain ⟨j, hjr, hj⟩ := List.mem_filterMap.mp hx
    exact hub j (List.mem_range.mp hjr) x hj

set_option maxRecDepth 40000 in
/-- Witness for C5: the characterization applied at a buffer whose
`/Pages` at position 0 is followed by `/Count 4`. -/
theorem c5_amended_forward_only_witness : (4 : Nat) ≤ 4 :=
  ((c5_amended_forward_only pages_then_count_buffer 4).mp (by rfl)).2 0 (by decide) 4 (by rfl)

set_option maxRecDepth 100000 in
/-- C9: on a well-formed chain whose Pages object carries `/Count 0`,
`count_pages_ultra_fast` returns `some 0` through the SpecFollowing path
(`find_count_value` accepts 0), while the fallback strategies reject the
parsed value 0 on the same buffer. -/
theorem c9_specfollowing_accepts_zero :
    UltraFastPdf.count_pages_ultra_fast count_zero_pdf = some 0 ∧
    UltraFastPdf.search_all_count_values count_zero_pdf = none ∧
    UltraFastPdf.search_type_pages_pattern count_zero_pdf = none :=
  ⟨by rfl, by rfl, by rfl⟩

/-- C10: every buffer shorter than 100 bytes is rejected outright by the
SpecFollowing fast path, whatever its content. -/
theorem c10_short_buffer_skips_fast_path (b : List Nat) (h : b.length < 100) :
    UltraFastPdf.parse_from_end_of_file b = none := by
  unfold UltraFastPdf.parse_from_end_of_file
  rw [if_pos h]

/-- Witness for C10: the empty buffer. -/
theorem c10_short_buffer_skips_fast_path_witness :
    UltraFastPdf.parse_from_end_of_file [] = none :=
  c10_short_buffer_skips_fast_path [] (by decide)

/-! Helper lemmas for the result-shape invariant. -/

theorem sizes_invariant_of_length (r : Schema.EstimateResult)
    (h : r.page_sizes.length = r.page_count) : sizes_invariant r :=
  ⟨h, fun h0 => List.length_eq_zero.mp (h.trans h0)⟩

theorem xlsx_fold_len (w h : Rat) (rpp : Nat) : ∀ (sheets : List Estimators.SheetData)
    (acc : Nat × List Schema.PageSizeMm × List String), acc.2.1.length = acc.1 →
    ((sheets.foldl (Estimators.xlsx_step w h rpp) acc).2.1.length =
     (sheets.foldl (Estimators.xlsx_step w h rpp) acc).1) := by
  intro sheets
  induction sheets with
  | nil => intro acc hacc; exact hacc
  | cons sh t ih =>
    intro acc hacc
    rw [List.foldl_cons]
    apply ih
    simp only [Estimators.xlsx_step]
    split
    · split
      · simp [hacc]
      · exact hacc
    · exact hacc

/-- C6: every `EstimateResult` produced by any of the embedded
estimators — plain text, Markdown, the simple PDF scanner of
`estimators.rs`, the `lopdf` full parse of `lib.rs`, XLSX, DOCX and
PPTX — satisfies `page_sizes.length = page_count`, with `page_sizes`
empty whenever `page_count` is zero. -/
theorem c6_sizes_match_count :
    (∀ (utf8 : Option (List Char)) (options : Schema.EstimateOptions),
      sizes_invariant (Estimators.estimate_text_pages utf8 options)) ∧
    (∀ (utf8 : Option (List Char)) (options : Schema.EstimateOptions),
      sizes_invariant (Estimators.estimate_markdown_pages utf8 options)) ∧
    (∀ (s : List Char) (r : Schema.EstimateResult),
      Estimators.estimate_pdf_pages s = .ok r → sizes_invariant r) ∧
    (∀ (doc : Except String (List LibRs.LopdfPage)) (r : Schema.EstimateResult),
      LibRs.estimate_pdf_pages doc = .ok r → sizes_invariant r) ∧
    (∀ (wb : Except String (List Estimators.SheetData)) (options : Schema.EstimateOptions)
        (r : Schema.EstimateResult),
      Estimators.estimate_xlsx_pages wb options = .ok r → sizes_invariant r) ∧
    (∀ (z : Except String Unit) (a : Option (Except String Nat))
        (c : Except String (Nat × Nat)) (options : Schema.EstimateOptions)
        (r : Schema.EstimateResult),
      Estimators.estimate_docx_pages z a c options = .ok r → sizes_invariant r) ∧
    (∀ (z : Except String Unit) (a : Option (Except String Nat)) (sf : Nat)
        (r : Schema.EstimateResult),
      Estimators.estimate_pptx_pages z a sf = .ok r → sizes_invariant r) := by
  have htext : ∀ (utf8 : Option (List Char)) (options : Schema.EstimateOptions),
      sizes_invariant (Estimators.estimate_text_pages utf8 options) := by
    intro utf8 options
    cases utf8 with
    | none => exact sizes_invariant_of_length _ rfl
    | some s =>
      apply sizes_invariant_of_length
      simp [Estimators.estimate_text_pages]
  refine ⟨htext, ?_, ?_, ?_, ?_, ?_, ?_⟩
  · intro utf8 options
    have h := htext utf8 options
    simp only [Estimators.estimate_markdown_pages]
    exact ⟨h.1, h.2⟩
  · intro s r h
    simp only [Estimators.estimate_pdf_pages] at h
    split at h
    · cases h
    · injection h with h'
      subst h'
      apply sizes_invariant_of_length
      simp
  · intro doc r h
    cases doc with
    | error e => cases h
    | ok pages =>
      simp only [LibRs.estimate_pdf_pages] at h
      injection h with h'
      subst h'
      exact sizes_invariant_of_length _ rfl
  · intro wb options r h
    cases wb with
    | error e => cases h
    | ok sheets =>
      simp only [Estimators.estimate_xlsx_pages] at h
      injection h with h'
      subst h'
      apply sizes_invariant_of_length
      exact xlsx_fold_len _ _ _ sheets (0, [], []) rfl
  · intro z a c options r h
    cases z with
    | error e => cases h
    | ok u =>
      simp only [Estimators.estimate_docx_pages] at h
      match a with
      | some (.error e) => cases h
      | some (.ok pc) =>
        injection h with h'
        subst h'
        apply sizes_invariant_of_length
        simp
      | none =>
        simp only [Estimators.estimate_docx_from_content] at h
        cases c with
        | error e => cases h
        | ok pb =>
          injection h with h'
          subst h'
          apply sizes_invariant_of_length
          simp
  · intro z a sf r h
    cases z with
    | error e => cases h
    | ok u =>
      simp only [Estimators.estimate_pptx_pages] at h
      match a with
      | some (.error e) => cases h
      | some (.ok sc) =>
        injection h with h'
        subst h'
        apply sizes_invariant_of_length
        simp
      | none =>
        simp only [Estimators.estimate_pptx_from_content] at h
        split at h
        · cases h
        · injection h with h'
          subst h'
          apply sizes_invariant_of_length
          simp

/-- Witness for C6: the PDF component applied at a concrete four-byte
text containing one `/Type /Page`. -/
theorem c6_sizes_match_count_witness :
    sizes_invariant
      { page_count := 1,
        page_sizes := [{ width_mm := 210, height_mm := 297 }],
        notes := ["PDF has 1 pages (estimated using simple parsing)",
                  "⚠ For more accurate results, use the async estimate_pdf_with_pdfjs function"] } :=
  c6_sizes_match_count.2.2.1 (("/Type /Page x").toList) _ (by rfl)

/-- C7: when the detected type is "pdf" and the PDF estimation fails,
`estimate_document` returns the error object carrying the estimator's
message and the detected type "pdf"; when the estimation succeeds it
returns the full result; and an error object on the PDF path arises only
from a failed estimation. -/
theorem c7_pdf_error_surfaced (bytes : List Nat) (filename : Option String)
    (options : Schema.EstimateOptions) (ext : Assembly.ExternalData)
    (hdet : FileUtils.detect_type filename bytes ext.zip = "pdf") :
    (∀ e, Estimators.estimate_pdf_pages ext.lossy = .error e →
      Assembly.estimate_document bytes filename options ext =
        .errorObj e.toMessage ("pdf")) ∧
    (∀ r, Estimators.estimate_pdf_pages ext.lossy = .ok r →
      Assembly.estimate_document bytes filename options ext = .ok r) ∧
    (∀ msg d, Assembly.estimate_document bytes filename options ext = .errorObj msg d →
      ∃ e, Estimators.estimate_pdf_pages ext.lossy = .error e ∧
        msg = e.toMessage ∧ d = "pdf") := by
  refine ⟨?_, ?_, ?_⟩
  · intro e he
    simp [Assembly.estimate_document, hdet, he, Except.mapError]
  · intro r hr
    simp [Assembly.estimate_document, hdet, hr, Except.mapError]
  · intro msg d hmsg
    cases hres : Estimators.estimate_pdf_pages ext.lossy with
    | error e =>
      simp [Assembly.estimate_document, hdet, hres, Except.mapError] at hmsg
      exact ⟨e, rfl, hmsg.1.symm, hmsg.2.symm⟩
    | ok r =>
      simp [Assembly.estimate_document, hdet, hres, Except.mapError] at hmsg

/-- Witness for C7: the bytes `%PDF` (detected "pdf" by magic bytes)
whose lossy text contains no page object. -/
theorem c7_pdf_error_surfaced_witness :
    Assembly.estimate_document pdf_magic_bytes none Schema.EstimateOptions.defaults
      pdf_magic_external =
    .errorObj
      ("PDF parse error: No pages found in PDF. File may be corrupted or use an unsupported format.")
      ("pdf") :=
  (c7_pdf_error_surfaced pdf_magic_bytes none Schema.EstimateOptions.defaults
      pdf_magic_external (by rfl)).1
    (.PdfError ("No pages found in PDF. File may be corrupted or use an unsupported format."))
    (by rfl)

/-- C8: the extraction pipeline is a pure function of its inputs — the
embedding is stateless exactly as the Rust free functions, which take
only their arguments and no global state — so running it twice on equal
inputs yields identical results. -/
theorem c8_extraction_deterministic (b1 b2 : List Nat) (h : b1 = b2)
    (filename : Option String) (options : Schema.EstimateOptions)
    (ext : Assembly.ExternalData) :
    UltraFastPdf.count_pages_ultra_fast b1 = UltraFastPdf.count_pages_ultra_fast b2 ∧
    UltraFastPdf.extract_mediabox_ultra_fast b1 =
      UltraFastPdf.extract_mediabox_ultra_fast b2 ∧
    Assembly.estimate_document b1 filename options ext =
      Assembly.estimate_document b2 filename options ext := by
  subst h
  exact ⟨rfl, rfl, rfl⟩

/-- Witness for C8: two runs on the empty buffer. -/
theorem c8_extraction_deterministic_witness :
    UltraFastPdf.count_pages_ultra_fast [] = UltraFastPdf.count_pages_ultra_fast [] :=
  (c8_extraction_deterministic [] [] rfl none Schema.EstimateOptions.defaults
    pdf_magic_external).1

end PageCounter
